import Mathlib

/-
Shallow embedding of the iter8 experiment controller.

The embedding follows the Go sources of the repository:
* the experiment controller file (constants, the event filter `add`,
  `Reconcile`, `syncMetrics`, `addFinalizerIfAbsent`, `removeFinalizer`,
  `finalize`, `proceed`);
* `pkg/controller/experiment/targets/targets.go` (`Targets`, `Cleanup`,
  `syncKubernetes`, `finalizeIstio`, `progress`, `detectTargets`).

External interactions (cluster writes, cache mutation, analytics calls,
routing updates, workload deletion) are recorded as an explicit effect
trace.  Outcomes of calls whose results come from outside the controller
(cluster update errors, metric reads, target lookups, the analytics
service) are supplied through an environment record `Env`.

Functions of this repository that the sources at hand do not contain
(the v1alpha1 API helpers and the reconciler sub-steps) are modelled
from the specification; each such definition carries a doc comment
starting with `Modelled from the spec:`.
-/

/- Constants from the controller source. -/

def KubernetesService : String := "v1"

def KnativeServiceV1Alpha1 : String := "serving.knative.dev/v1alpha1"

def Iter8Controller : String := "iter8-controller"

def Finalizer : String := "finalizer.iter8-tools"

/-- Modelled from the spec: the experiment phases (`Initializing`,
`Progressing`, `Completed`); the v1alpha1 API types are not in the
sources. -/
inductive Phase
  | Initializing
  | Progressing
  | Completed
deriving DecidableEq

/-- Modelled from the spec: condition status values (`True`, `False`,
`Unknown`), mirroring the Kubernetes `corev1.ConditionStatus`. -/
inductive ConditionStatus
  | cTrue
  | cFalse
  | cUnknown
deriving DecidableEq

/-- Modelled from the spec: the condition kinds of an experiment. -/
inductive ConditionType
  | TargetsProvided
  | MetricsSynced
  | AnalyticsServiceNormal
  | RoutingRulesReady
  | ExperimentSucceeded
  | ExperimentCompleted
deriving DecidableEq

/-- Modelled from the spec: a condition entry, `conditionKind` mapped to
status, reason and message. -/
structure Condition where
  ctype : ConditionType
  status : ConditionStatus
  reason : String
  message : String
deriving DecidableEq

structure TrafficSplit where
  baseline : Int
  candidate : Int
deriving DecidableEq

/-- Modelled from the spec: the status substructure of an experiment
record.  Timestamps are integers; the opaque analytics payload is kept
as the two flags the control loop consults. -/
structure ExperimentStatus where
  phase : Phase
  conditions : List Condition
  trafficSplit : TrafficSplit
  currentIteration : Nat
  lastIncrementTime : Int
  createTimestamp : Int
  analyticsStop : Bool
  analyticsSuccess : Bool
deriving DecidableEq

structure TargetService where
  apiVersion : String
  name : String
deriving DecidableEq

structure TrafficControl where
  maxIterations : Nat
  interval : Int
deriving DecidableEq

structure ExperimentSpec where
  targetService : TargetService
  trafficControl : TrafficControl
  cleanUp : String
  analysisSuccessCriteria : List String
deriving DecidableEq

/-- The experiment record: object metadata (name, namespace, finalizer
list, deletion timestamp), the mutable operator `action` field, the
loaded metric definitions, the spec and the status. -/
structure Experiment where
  name : String
  nspace : String
  finalizers : List String
  deletionTimestamp : Option Int
  action : String
  metrics : List String
  spec : ExperimentSpec
  status : ExperimentStatus
deriving DecidableEq

/- Action values and helpers. -/

/-- Modelled from the spec: the terminate action reasons
(`successWithBaseline`, `successWithCandidate`, `abort`,
`overrideFailure`); the v1alpha1 constants are not in the sources. -/
def ActionSuccessWithBaseline : String := "terminate_success_with_baseline"

def ActionSuccessWithCandidate : String := "terminate_success_with_candidate"

def ActionAbort : String := "terminate_abort"

def ActionOverrideFailure : String := "terminate_override_failure"

def ActionPause : String := "pause"

def ActionResume : String := "resume"

/-- Modelled from the spec: `Action.TerminateExperiment` is not in the
sources; it recognises exactly the terminate action variants. -/
def TerminateExperiment (a : String) : Bool :=
  decide (a = ActionSuccessWithBaseline ∨ a = ActionSuccessWithCandidate ∨
    a = ActionAbort ∨ a = ActionOverrideFailure)

/-- Modelled from the spec: `Status.GetCondition` is not in the
sources; conditions form a mapping from kind to condition entry, so the
lookup returns the entry of the requested kind if one is present. -/
def GetCondition (s : ExperimentStatus) (t : ConditionType) : Option Condition :=
  s.conditions.find? (fun c => decide (c.ctype = t))

/-- Modelled from the spec: the condition setters (`MarkTargetsError`
and friends) replace the entry of the given kind. -/
def setCondition (e : Experiment) (t : ConditionType) (s : ConditionStatus)
    (reason msg : String) : Experiment :=
  { e with status := { e.status with conditions :=
      (e.status.conditions.filter (fun c => !(decide (c.ctype = t)))) ++
        [⟨t, s, reason, msg⟩] } }

/-- Modelled from the spec: `MarkTargetsError` is not in the sources; it
records a terminal targets error on the record with the given reason and
the offending API version as message. -/
def MarkTargetsError (e : Experiment) (reason msg : String) : Experiment :=
  setCondition e ConditionType.TargetsProvided ConditionStatus.cFalse reason msg

/-- Modelled from the spec: `MarkSyncMetricsError` is not in the
sources; it records a metrics sync failure. -/
def MarkSyncMetricsError (e : Experiment) (msg : String) : Experiment :=
  setCondition e ConditionType.MetricsSynced ConditionStatus.cFalse "SyncMetricsError" msg

/-- Modelled from the spec: `MarkSyncMetrics` is not in the sources; it
records a successful metrics sync. -/
def MarkSyncMetrics (e : Experiment) : Experiment :=
  setCondition e ConditionType.MetricsSynced ConditionStatus.cTrue "" ""

/- Effects: the externally visible interactions of one reconcile. -/

/-- One observable interaction of the controller.  Cache operations
(`registerExperiment`, `removeExperimentFromCache`) act on the in-memory
IndexCache; all other constructors are external interactions (cluster
writes, metric reads, analytics calls, routing updates, workload
deletion, notifications). -/
inductive Effect
  | registerExperiment (name ns : String)
  | removeExperimentFromCache (name ns : String)
  | updateExperiment (e : Experiment)
  | updateStatus (e : Experiment)
  | readMetrics
  | analyticsCall
  | routingUpdate (split : TrafficSplit)
  | notify
  | deleteWorkload (name : String)
deriving DecidableEq

/-- Whether an effect leaves the controller process (everything except
the in-memory IndexCache operations). -/
def Effect.isExternal : Effect → Bool
  | .registerExperiment _ _ => false
  | .removeExperimentFromCache _ _ => false
  | _ => true

/-- Response of the external check-and-increment analytics service. -/
structure AnalyticsResponse where
  newBaseline : Int
  newCandidate : Int
  success : Bool
  stop : Bool
deriving DecidableEq

/-- Outcomes of the calls whose results are produced outside the
controller, fixed for the duration of one reconcile.  A `...Benign`
field records whether the corresponding error is a benign optimistic
concurrency conflict (`validUpdateErr`). -/
structure Env where
  now : Int := 0
  objectUpdateErr : Option String := none
  objectUpdateErrBenign : Bool := false
  statusUpdateErr : Option String := none
  statusUpdateErrBenign : Bool := false
  metricsReadErr : Option String := none
  metricsReadErrBenign : Bool := false
  rulesExist : Bool := true
  routingCreateErr : Option String := none
  serviceFound : Bool := true
  baselineFound : Bool := true
  candidateFound : Bool := true
  targetReadErr : Option String := none
  analytics : Option AnalyticsResponse := none
  abstractTerminate : Option Bool := none
deriving DecidableEq

/-- The branch condition `err != nil && !validUpdateErr(err)` of the Go
sources: a present error that is not a benign conflict. -/
def hardFail (err : Option String) (benign : Bool) : Bool :=
  err.isSome && !benign

/- Result and output shapes. -/

/-- The `reconcile.Result` value: whether and when to requeue. -/
structure ReconcileResult where
  requeue : Bool
  requeueAfter : Int
deriving DecidableEq

def emptyResult : ReconcileResult := { requeue := false, requeueAfter := 0 }

/-- Output of a helper that may update the experiment object in the
cluster: the returned error, the in-memory instance afterwards, and the
emitted effects. -/
structure UpdOut where
  err : Option String
  inst : Experiment
  effects : List Effect
deriving DecidableEq

/-- Output of a family sync or finalize pass. -/
structure SyncOut where
  result : ReconcileResult
  err : Option String
  inst : Experiment
  effects : List Effect
deriving DecidableEq

/-- Output of a reconciler sub-step: the flag returned alongside the
error (`updateStatus` or `completed`), the error, the instance after
the in-memory mutation, and the emitted effects. -/
structure StepOut where
  flag : Bool := false
  err : Option String := none
  inst : Experiment
  effects : List Effect := []
deriving DecidableEq

/-- Output of a whole `Reconcile` invocation; `inst` is `none` when the
experiment could not be fetched. -/
structure ReconcileOut where
  result : ReconcileResult
  err : Option String
  inst : Option Experiment
  effects : List Effect
deriving DecidableEq

/- The experiment update event filter (`add`, watch on experiments). -/

/-- The update admission predicate installed on the experiment watch:
reject a finalizer list going from empty to non-empty, reject the
`action` field going from non-empty to empty, reject the metrics list
going from empty to non-empty; accept everything else. -/
def experimentUpdateFilter (oldInstance newInstance : Experiment) : Bool :=
  if oldInstance.finalizers.length = 0 ∧ 0 < newInstance.finalizers.length then
    false
  else if 0 < oldInstance.action.length ∧ newInstance.action.length = 0 then
    false
  else if oldInstance.metrics.length = 0 ∧ 0 < newInstance.metrics.length then
    false
  else
    true

/-- The rejection rule as the specification words it: the event is
rejected when the *only* change between the old and the new object is a
finalizer addition from none to one, the action being cleared, or a
first-time metrics population.  Used to compare the specification
against `experimentUpdateFilter`. -/
def specOnlyChangeReject (oldInstance newInstance : Experiment) : Prop :=
  (oldInstance.finalizers = [] ∧ newInstance.finalizers.length = 1 ∧
    { newInstance with finalizers := oldInstance.finalizers } = oldInstance) ∨
  (oldInstance.action ≠ "" ∧ newInstance.action = "" ∧
    { newInstance with action := oldInstance.action } = oldInstance) ∨
  (oldInstance.metrics = [] ∧ newInstance.metrics ≠ [] ∧
    { newInstance with metrics := oldInstance.metrics } = oldInstance)

instance (a b : Experiment) : Decidable (specOnlyChangeReject a b) := by
  unfold specOnlyChangeReject
  infer_instance

/- Finalizer handling. -/

def addFinalizerIfAbsent (env : Env) (fName : String) (e : Experiment) : UpdOut :=
  if fName ∈ e.finalizers then
    { err := none, inst := e, effects := [] }
  else
    let e1 := { e with finalizers := e.finalizers ++ [Finalizer] }
    { err := env.objectUpdateErr, inst := e1, effects := [Effect.updateExperiment e1] }

def removeFinalizer (env : Env) (fName : String) (e : Experiment) : UpdOut :=
  let e1 := { e with finalizers := e.finalizers.filter (fun f => !(decide (f = fName))) }
  { err := env.objectUpdateErr, inst := e1, effects := [Effect.updateExperiment e1] }

/- Targets and cleanup (`targets.go`). -/

/-- The target bundle: the names of the three resolved objects. -/
structure Targets where
  service : String
  baseline : String
  candidate : String
deriving DecidableEq

/-- Modelled from the spec: `util.GetStableTarget` is not in the
sources; stable-target selection follows the terminate action reason,
then the `ExperimentSucceeded` condition, defaulting to the baseline. -/
def GetStableTarget (e : Experiment) : String :=
  if e.action = ActionSuccessWithBaseline then "baseline"
  else if e.action = ActionSuccessWithCandidate then "candidate"
  else if e.action = ActionAbort ∨ e.action = ActionOverrideFailure then "baseline"
  else
    match GetCondition e.status ConditionType.ExperimentSucceeded with
    | some c => if c.status = ConditionStatus.cTrue then "candidate" else "baseline"
    | none => "baseline"

def CleanUpDelete : String := "delete"

/-- `Targets.Cleanup`: under the delete cleanup policy, delete the
workload opposite to the stable target and set the final traffic split.
Errors of the cluster delete are only logged by the source, so the
outcome of the delete call does not influence the behaviour. -/
def Cleanup (t : Targets) (e : Experiment) : Experiment × List Effect :=
  if e.spec.cleanUp = CleanUpDelete then
    if GetStableTarget e = "baseline" then
      ({ e with status := { e.status with trafficSplit := ⟨100, 0⟩ } },
        [Effect.deleteWorkload t.candidate])
    else if GetStableTarget e = "candidate" then
      ({ e with status := { e.status with trafficSplit := ⟨0, 100⟩ } },
        [Effect.deleteWorkload t.baseline])
    else (e, [])
  else (e, [])

/- The progress check (`targets.go`, kubernetes sync file). -/

def progress (now : Int) (e : Experiment) : Bool :=
  if TerminateExperiment e.action then false
  else decide (now > e.status.lastIncrementTime + e.spec.trafficControl.interval)

/-- The progress rule as the specification words it: progression is
permitted when `now` is at or past `lastIncrementTime + interval`.
Used to compare the specification against `progress`. -/
def progressSpec (now : Int) (e : Experiment) : Bool :=
  if TerminateExperiment e.action then false
  else decide (now ≥ e.status.lastIncrementTime + e.spec.trafficControl.interval)

def detectTargets (env : Env) (e : Experiment) : Bool :=
  if env.abstractTerminate = some true then false
  else
    match GetCondition e.status ConditionType.TargetsProvided with
    | some c => !(decide (c.status = ConditionStatus.cTrue))
    | none => true

def proceed (e : Experiment) : Bool :=
  if e.status.phase = Phase.Completed then false else true

/- Spec-modelled sub-steps of the kubernetes family handler. -/

/-- Modelled from the spec: `checkOrInitRules` is not in the sources;
routing init ensures the routing rules exist for the service with the
current split, creating them (and marking `RoutingRulesReady`) when
absent, and reporting a status-worthy error when the creation fails. -/
def checkOrInitRules (env : Env) (e : Experiment) : StepOut :=
  if env.rulesExist then { inst := e }
  else
    match env.routingCreateErr with
    | some m =>
        { inst := setCondition e ConditionType.RoutingRulesReady ConditionStatus.cFalse
            "RoutingRulesError" m,
          flag := true, err := some m }
    | none =>
        { inst := setCondition e ConditionType.RoutingRulesReady ConditionStatus.cTrue "" "",
          effects := [Effect.routingUpdate e.status.trafficSplit] }

/-- Modelled from the spec: the `detectTargets` method of the reconciler
is not in the sources; the target resolver reads the three named
objects, surfaces a retryable error on a transient read failure, marks
`TargetsProvided` true when all are present and false otherwise. -/
def detectTargetsResolve (env : Env) (e : Experiment) : StepOut :=
  match env.targetReadErr with
  | some m => { inst := e, err := some m }
  | none =>
      if env.serviceFound && env.baselineFound && env.candidateFound then
        { inst := setCondition e ConditionType.TargetsProvided ConditionStatus.cTrue "" "" }
      else
        { inst := setCondition e ConditionType.TargetsProvided ConditionStatus.cFalse
            "TargetsNotFound" "",
          flag := true, err := some "TargetsNotFound" }

/-- Modelled from the spec: `progressExperiment` is not in the sources;
progression calls the analytics service and applies the response (new
split, iteration increment, `lastIncrementTime = now`, push of the new
split to the routing adapter); an unreachable service marks
`AnalyticsServiceNormal` false with no state advancement. -/
def progressExperiment (env : Env) (e : Experiment) : StepOut :=
  match env.analytics with
  | none =>
      { inst := setCondition e ConditionType.AnalyticsServiceNormal ConditionStatus.cFalse
          "AnalyticsError" "",
        err := some "AnalyticsError", effects := [Effect.analyticsCall] }
  | some resp =>
      let e1 := setCondition e ConditionType.AnalyticsServiceNormal ConditionStatus.cTrue "" ""
      let e2 := { e1 with status := { e1.status with
                    trafficSplit := ⟨resp.newBaseline, resp.newCandidate⟩,
                    currentIteration := e1.status.currentIteration + 1,
                    lastIncrementTime := env.now,
                    analyticsStop := resp.stop,
                    analyticsSuccess := resp.success } }
      { inst := e2,
        effects := [Effect.analyticsCall,
          Effect.routingUpdate ⟨resp.newBaseline, resp.newCandidate⟩] }

/-- Modelled from the spec: `checkExperimentCompleted` is not in the
sources; the experiment is complete when the action is a terminate
variant, the iteration budget is exhausted, or analytics signalled stop;
on completion the stable target receives the full split via the routing
adapter, `ExperimentCompleted` is set and a lifecycle event is sent. -/
def checkExperimentCompleted (env : Env) (e : Experiment) : StepOut :=
  if TerminateExperiment e.action ∨
      e.spec.trafficControl.maxIterations ≤ e.status.currentIteration ∨
      e.status.analyticsStop then
    let finalSplit : TrafficSplit :=
      if GetStableTarget e = "baseline" then ⟨100, 0⟩ else ⟨0, 100⟩
    let e1 := { e with status := { e.status with
                  phase := Phase.Completed, trafficSplit := finalSplit } }
    let e2 := setCondition e1 ConditionType.ExperimentCompleted ConditionStatus.cTrue "" ""
    { inst := e2, flag := true,
      effects := [Effect.routingUpdate finalSplit, Effect.notify] }
  else { inst := e }

/- The kubernetes family handler (`syncKubernetes`), split along its
early returns. -/

def skCompletion (env : Env) (e : Experiment) (effs : List Effect)
    (hasProgressed : Bool) : SyncOut :=
  if (checkExperimentCompleted env e).flag then
    if hardFail env.statusUpdateErr env.statusUpdateErrBenign then
      { result := emptyResult, err := none,
        inst := (checkExperimentCompleted env e).inst,
        effects := effs ++ (checkExperimentCompleted env e).effects ++
          [Effect.updateStatus (checkExperimentCompleted env e).inst] }
    else
      { result := emptyResult, err := (checkExperimentCompleted env e).err,
        inst := (checkExperimentCompleted env e).inst,
        effects := effs ++ (checkExperimentCompleted env e).effects ++
          [Effect.updateStatus (checkExperimentCompleted env e).inst] }
  else if hasProgressed then
    { result :=
        { requeue := false,
          requeueAfter := (checkExperimentCompleted env e).inst.spec.trafficControl.interval },
      err := none, inst := (checkExperimentCompleted env e).inst,
      effects := effs ++ (checkExperimentCompleted env e).effects }
  else
    { result := emptyResult, err := none,
      inst := (checkExperimentCompleted env e).inst,
      effects := effs ++ (checkExperimentCompleted env e).effects }

def skProgress (env : Env) (e : Experiment) (effs : List Effect) : SyncOut :=
  if progress env.now e then
    if hardFail env.statusUpdateErr env.statusUpdateErrBenign then
      { result := emptyResult, err := none, inst := (progressExperiment env e).inst,
        effects := effs ++ (progressExperiment env e).effects ++
          [Effect.updateStatus (progressExperiment env e).inst] }
    else if (progressExperiment env e).err.isSome then
      { result := emptyResult, err := none, inst := (progressExperiment env e).inst,
        effects := effs ++ (progressExperiment env e).effects ++
          [Effect.updateStatus (progressExperiment env e).inst] }
    else
      skCompletion env (progressExperiment env e).inst
        (effs ++ (progressExperiment env e).effects ++
          [Effect.updateStatus (progressExperiment env e).inst]) true
  else skCompletion env e effs false

def skDetect (env : Env) (e : Experiment) (effs : List Effect) : SyncOut :=
  if detectTargets env e then
    if (detectTargetsResolve env e).err.isSome then
      { result := emptyResult, err := none, inst := (detectTargetsResolve env e).inst,
        effects := effs ++ (detectTargetsResolve env e).effects ++
          (if (detectTargetsResolve env e).flag then
            [Effect.updateStatus (detectTargetsResolve env e).inst] else []) }
    else
      skProgress env (detectTargetsResolve env e).inst
        (effs ++ (detectTargetsResolve env e).effects)
  else skProgress env e effs

def syncKubernetes (env : Env) (e : Experiment) : SyncOut :=
  if (checkOrInitRules env e).err.isSome then
    { result := emptyResult, err := none, inst := (checkOrInitRules env e).inst,
      effects := (checkOrInitRules env e).effects ++
        (if (checkOrInitRules env e).flag then
          [Effect.updateStatus (checkOrInitRules env e).inst] else []) }
  else skDetect env (checkOrInitRules env e).inst (checkOrInitRules env e).effects

/-- Modelled from the spec: `syncKnative` is not in the sources; each
family handler follows the same inner algorithm, so the knative handler
is modelled by the same pass. -/
def syncKnative (env : Env) (e : Experiment) : SyncOut :=
  syncKubernetes env e

/- Finalization. -/

def finalizeIstio (env : Env) (e : Experiment) : SyncOut :=
  if (match GetCondition e.status ConditionType.ExperimentCompleted with
      | some c => !(decide (c.status = ConditionStatus.cTrue))
      | none => false) then
    { result := emptyResult,
      err := (removeFinalizer env Finalizer
        (syncKubernetes env { e with action := ActionOverrideFailure }).inst).err,
      inst := (removeFinalizer env Finalizer
        (syncKubernetes env { e with action := ActionOverrideFailure }).inst).inst,
      effects := (syncKubernetes env { e with action := ActionOverrideFailure }).effects ++
        [Effect.removeExperimentFromCache
          (syncKubernetes env { e with action := ActionOverrideFailure }).inst.name
          (syncKubernetes env { e with action := ActionOverrideFailure }).inst.nspace] ++
        (removeFinalizer env Finalizer
          (syncKubernetes env { e with action := ActionOverrideFailure }).inst).effects }
  else
    { result := emptyResult, err := (removeFinalizer env Finalizer e).err,
      inst := (removeFinalizer env Finalizer e).inst,
      effects := (removeFinalizer env Finalizer e).effects }

/-- Modelled from the spec: `finalizeKnative` is not in the sources; the
specification prescribes the same finalization protocol for both
supported families. -/
def finalizeKnative (env : Env) (e : Experiment) : SyncOut :=
  if (match GetCondition e.status ConditionType.ExperimentCompleted with
      | some c => !(decide (c.status = ConditionStatus.cTrue))
      | none => false) then
    { result := emptyResult,
      err := (removeFinalizer env Finalizer
        (syncKnative env { e with action := ActionOverrideFailure }).inst).err,
      inst := (removeFinalizer env Finalizer
        (syncKnative env { e with action := ActionOverrideFailure }).inst).inst,
      effects := (syncKnative env { e with action := ActionOverrideFailure }).effects ++
        [Effect.removeExperimentFromCache
          (syncKnative env { e with action := ActionOverrideFailure }).inst.name
          (syncKnative env { e with action := ActionOverrideFailure }).inst.nspace] ++
        (removeFinalizer env Finalizer
          (syncKnative env { e with action := ActionOverrideFailure }).inst).effects }
  else
    { result := emptyResult, err := (removeFinalizer env Finalizer e).err,
      inst := (removeFinalizer env Finalizer e).inst,
      effects := (removeFinalizer env Finalizer e).effects }

def finalize (env : Env) (e : Experiment) : SyncOut :=
  if e.spec.targetService.apiVersion = KubernetesService then finalizeIstio env e
  else if e.spec.targetService.apiVersion = KnativeServiceV1Alpha1 then finalizeKnative env e
  else
    { result := emptyResult, err := (removeFinalizer env Finalizer e).err,
      inst := (removeFinalizer env Finalizer e).inst,
      effects := (removeFinalizer env Finalizer e).effects }

/- Metrics sync (`syncMetrics`). -/

def syncMetrics (env : Env) (e : Experiment) : UpdOut :=
  if e.spec.analysisSuccessCriteria.length = 0 then
    { err := none, inst := e, effects := [] }
  else
    let ms := GetCondition e.status ConditionType.MetricsSynced
    let notSynced :=
      match ms with
      | none => true
      | some c => !(decide (c.status = ConditionStatus.cTrue))
    if notSynced then
      if hardFail env.metricsReadErr env.metricsReadErrBenign then
        let e1 := MarkSyncMetricsError e
          (match env.metricsReadErr with | some m => m | none => "")
        if hardFail env.statusUpdateErr env.statusUpdateErrBenign then
          { err := env.statusUpdateErr, inst := e1,
            effects := [Effect.readMetrics, Effect.updateStatus e1] }
        else
          { err := env.metricsReadErr, inst := e1,
            effects := [Effect.readMetrics, Effect.updateStatus e1] }
      else
        { err := none, inst := MarkSyncMetrics e, effects := [Effect.readMetrics] }
    else
      { err := none, inst := e, effects := [] }

/- The top-level reconcile (`Reconcile`). -/

/-- Modelled from the spec: `Status.Init` is not in the sources; first
sight sets phase Initializing, zero split, empty conditions, iteration
zero, and stamps the creation time. -/
def statusInit (now : Int) (e : Experiment) : Experiment :=
  { e with status :=
      { phase := Phase.Initializing, conditions := [], trafficSplit := ⟨0, 0⟩,
        currentIteration := 0, lastIncrementTime := now, createTimestamp := now,
        analyticsStop := false, analyticsSuccess := false } }

/-- Outcome of the initial fetch of the experiment record. -/
inductive FetchResult
  | found (e : Experiment)
  | notFound
  | fetchErr (msg : String)

def dispatch (env : Env) (e : Experiment) (effs : List Effect) : ReconcileOut :=
  if e.spec.targetService.apiVersion = KubernetesService then
    let o := syncKubernetes env e
    { result := o.result, err := o.err, inst := some o.inst, effects := effs ++ o.effects }
  else if e.spec.targetService.apiVersion = KnativeServiceV1Alpha1 then
    let o := syncKnative env e
    { result := o.result, err := o.err, inst := some o.inst, effects := effs ++ o.effects }
  else
    let e1 := MarkTargetsError e "UnsupportedAPIVersion" e.spec.targetService.apiVersion
    { result := emptyResult, err := none, inst := some e1,
      effects := effs ++ [Effect.updateStatus e1] }

def reconcileAfterInit (env : Env) (e : Experiment) (effs : List Effect) : ReconcileOut :=
  let sm := syncMetrics env e
  if sm.err.isSome then
    { result := emptyResult, err := none, inst := some sm.inst,
      effects := effs ++ sm.effects }
  else
    dispatch env sm.inst (effs ++ sm.effects)

def reconcileMain (env : Env) (e : Experiment) (effs : List Effect) : ReconcileOut :=
  if e.status.createTimestamp = 0 then
    let e1 := statusInit env.now e
    let effs1 := effs ++ [Effect.updateStatus e1]
    if hardFail env.statusUpdateErr env.statusUpdateErrBenign then
      { result := emptyResult, err := none, inst := some e1, effects := effs1 }
    else
      reconcileAfterInit env e1 effs1
  else
    reconcileAfterInit env e effs

def Reconcile (env : Env) (fetch : FetchResult) : ReconcileOut :=
  match fetch with
  | FetchResult.notFound =>
      { result := emptyResult, err := none, inst := none, effects := [] }
  | FetchResult.fetchErr m =>
      { result := emptyResult, err := some m, inst := none, effects := [] }
  | FetchResult.found inst0 =>
      let regEffs := [Effect.registerExperiment inst0.name inst0.nspace]
      let fr := addFinalizerIfAbsent env Finalizer inst0
      let effs1 := regEffs ++ fr.effects
      if hardFail fr.err env.objectUpdateErrBenign then
        { result := emptyResult, err := fr.err, inst := some fr.inst, effects := effs1 }
      else if fr.inst.deletionTimestamp.isSome then
        let fo := finalize env fr.inst
        { result := fo.result, err := fo.err, inst := some fo.inst,
          effects := effs1 ++ fo.effects }
      else if proceed fr.inst = false then
        { result := emptyResult, err := none, inst := some fr.inst, effects := effs1 }
      else
        reconcileMain env fr.inst effs1

/- Concrete sample data used by witnesses and counterexamples. -/

def envD : Env := {}

def targetsD : Targets := { service := "svc", baseline := "base", candidate := "cand" }

def specD : ExperimentSpec :=
  { targetService := { apiVersion := "v1", name := "svc" },
    trafficControl := { maxIterations := 3, interval := 5 },
    cleanUp := "", analysisSuccessCriteria := [] }

def statusD : ExperimentStatus :=
  { phase := Phase.Progressing, conditions := [], trafficSplit := ⟨100, 0⟩,
    currentIteration := 1, lastIncrementTime := 10, createTimestamp := 1,
    analyticsStop := false, analyticsSuccess := false }

def expD : Experiment :=
  { name := "exp", nspace := "ns", finalizers := [Finalizer],
    deletionTimestamp := none, action := "", metrics := [],
    spec := specD, status := statusD }

/- Claim C7. -/

/-- Claim C7 (confirmed): a work item whose experiment record no longer
exists is dropped — the not-found fetch outcome yields success, no
requeue and no effects — while any other fetch error is returned to the
dispatcher unchanged, again with no effects. -/
theorem c7_fetch_outcomes (env : Env) (m : String) :
    Reconcile env FetchResult.notFound =
      { result := emptyResult, err := none, inst := none, effects := [] } ∧
    Reconcile env (FetchResult.fetchErr m) =
      { result := emptyResult, err := some m, inst := none, effects := [] } :=
  ⟨rfl, rfl⟩

/- Claim C8. -/

/-- Claim C8 (confirmed): when the controller's finalizer token is
already present, `addFinalizerIfAbsent` returns no error, issues no
cluster update, and leaves the instance unchanged. -/
theorem c8_addFinalizer_noop (env : Env) (e : Experiment)
    (h : Finalizer ∈ e.finalizers) :
    addFinalizerIfAbsent env Finalizer e = { err := none, inst := e, effects := [] } := by
  simp [addFinalizerIfAbsent, h]

/-- Claim C8 witness: the no-op behaviour evaluated on a concrete
experiment that already carries the finalizer token. -/
theorem c8_addFinalizer_noop_witness :
    Finalizer ∈ expD.finalizers ∧
    addFinalizerIfAbsent envD Finalizer expD = { err := none, inst := expD, effects := [] } :=
  ⟨by decide, c8_addFinalizer_noop envD expD (by decide)⟩

/- Claim C9. -/

/-- Claim C9 (confirmed): under any cleanup policy other than delete,
`Cleanup` deletes nothing and leaves the experiment, including both
traffic split fields, unchanged. -/
theorem c9_cleanup_frame (t : Targets) (e : Experiment)
    (h : e.spec.cleanUp ≠ CleanUpDelete) :
    Cleanup t e = (e, []) := by
  simp [Cleanup, h]

/-- Claim C9 witness: the frame property evaluated on a concrete
experiment with an empty cleanup policy. -/
theorem c9_cleanup_frame_witness :
    expD.spec.cleanUp ≠ CleanUpDelete ∧ Cleanup targetsD expD = (expD, []) :=
  ⟨by decide, c9_cleanup_frame targetsD expD (by decide)⟩

/- Claim C4. -/

/-- Claim C4 (amended): the update admission predicate rejects exactly
the events where the finalizer list goes from empty to non-empty, or
the action field goes from non-empty to empty, or the metrics list goes
from empty to non-empty — regardless of what else changed in the same
event — and accepts every other update event. -/
theorem c4_update_filter (oldInstance newInstance : Experiment) :
    experimentUpdateFilter oldInstance newInstance = false ↔
      (oldInstance.finalizers.length = 0 ∧ 0 < newInstance.finalizers.length) ∨
      (0 < oldInstance.action.length ∧ newInstance.action.length = 0) ∨
      (oldInstance.metrics.length = 0 ∧ 0 < newInstance.metrics.length) := by
  unfold experimentUpdateFilter
  split_ifs with h1 h2 h3 <;> simp_all

/-- Claim C4 counterexample: an update that adds a finalizer *and*
changes the action field in the same event is rejected by the code,
although it is not an event whose only change is one of the three
listed patterns, so the claim's "accepts every other update event" is
false. -/
theorem c4_update_filter_counterexample :
    experimentUpdateFilter { expD with finalizers := [] }
        { expD with finalizers := [Finalizer], action := ActionPause } = false ∧
    ¬ specOnlyChangeReject { expD with finalizers := [] }
        { expD with finalizers := [Finalizer], action := ActionPause } :=
  ⟨rfl, by decide⟩

/- Lookup of a freshly set condition. -/

theorem find?_filtered_append (l : List Condition) (t : ConditionType) (c : Condition) :
    ((l.filter (fun x => !(decide (x.ctype = t)))) ++ [c]).find?
        (fun x => decide (x.ctype = t)) = [c].find? (fun x => decide (x.ctype = t)) := by
  induction l with
  | nil => simp
  | cons a l ih =>
      by_cases h : a.ctype = t
      · simpa [List.filter_cons, h] using ih
      · simpa [List.filter_cons, h, List.find?_cons] using ih

theorem GetCondition_setCondition (e : Experiment) (t : ConditionType)
    (s : ConditionStatus) (reason msg : String) :
    GetCondition (setCondition e t s reason msg).status t =
      some { ctype := t, status := s, reason := reason, message := msg } := by
  unfold GetCondition setCondition
  simpa using find?_filtered_append e.status.conditions t ⟨t, s, reason, msg⟩

/- Claim C1. -/

/-- Claim C1 (amended): on an experiment without deletion timestamp,
with `phase = Completed` and with the controller's finalizer token
already present, the reconcile stops at the proceed gate: it returns
success without requeue and its only effect is the in-memory cache
registration — no status update, metrics read, routing change,
analytics call or any other external side effect happens.  (The gate is
preceded by cache registration and the finalizer-ensure step, so the
finalizer-present proviso is needed; see the counterexample.) -/
theorem c1_completed_gate (env : Env) (e : Experiment)
    (h1 : e.deletionTimestamp = none)
    (h2 : e.status.phase = Phase.Completed)
    (h3 : Finalizer ∈ e.finalizers) :
    Reconcile env (FetchResult.found e) =
      { result := emptyResult, err := none, inst := some e,
        effects := [Effect.registerExperiment e.name e.nspace] } ∧
    (Reconcile env (FetchResult.found e)).effects.all
      (fun x => !(x.isExternal)) = true := by
  have hfr : addFinalizerIfAbsent env Finalizer e =
      { err := none, inst := e, effects := [] } := by
    simp [addFinalizerIfAbsent, h3]
  constructor
  · simp [Reconcile, hfr, hardFail, h1, proceed, h2]
  · simp [Reconcile, hfr, hardFail, h1, proceed, h2, Effect.isExternal]

/-- A completed experiment that already carries the finalizer token. -/
def expC1 : Experiment := { expD with status := { statusD with phase := Phase.Completed } }

/-- A completed experiment with an empty finalizer list. -/
def expC1n : Experiment := { expC1 with finalizers := [] }

/-- Claim C1 witness: the gate behaviour evaluated on a concrete
completed experiment that already carries the finalizer token. -/
theorem c1_completed_gate_witness :
    Reconcile envD (FetchResult.found expC1) =
      { result := emptyResult, err := none, inst := some expC1,
        effects := [Effect.registerExperiment expC1.name expC1.nspace] } ∧
    (Reconcile envD (FetchResult.found expC1)).effects.all
      (fun x => !(x.isExternal)) = true :=
  c1_completed_gate envD expC1 rfl rfl (by decide)

/-- Claim C1 counterexample: on a completed experiment whose finalizer
list is empty, the finalizer-ensure step precedes the proceed gate and
issues a cluster update of the experiment object, so the reconcile does
perform an external side effect even though `phase = Completed` and no
deletion timestamp is set. -/
theorem c1_completed_gate_counterexample :
    expC1n.deletionTimestamp = none ∧
    expC1n.status.phase = Phase.Completed ∧
    (Reconcile envD (FetchResult.found expC1n)).effects.any Effect.isExternal = true := by
  refine ⟨rfl, rfl, ?_⟩
  decide

/- Claim C6. -/

/-- An experiment whose target service API version is unsupported. -/
def expC6 : Experiment :=
  { expD with spec := { specD with targetService := { apiVersion := "v2", name := "svc" } } }

/-- Claim C6 (confirmed): a reconcile that reaches the family dispatch
(no deletion, not completed, finalizer present, already initialised, no
success criteria pending a metrics sync) on an experiment whose target
service API version is neither the kubernetes family nor the knative
family records a terminal targets error naming the unsupported API
version, persists the status, and returns success with no requeue. -/
theorem c6_unsupported_api (env : Env) (e : Experiment)
    (h1 : e.deletionTimestamp = none)
    (h2 : e.status.phase ≠ Phase.Completed)
    (h3 : Finalizer ∈ e.finalizers)
    (h4 : e.status.createTimestamp ≠ 0)
    (h5 : e.spec.analysisSuccessCriteria = [])
    (h6 : e.spec.targetService.apiVersion ≠ KubernetesService)
    (h7 : e.spec.targetService.apiVersion ≠ KnativeServiceV1Alpha1) :
    Reconcile env (FetchResult.found e) =
      { result := emptyResult, err := none,
        inst := some (MarkTargetsError e "UnsupportedAPIVersion" e.spec.targetService.apiVersion),
        effects := [Effect.registerExperiment e.name e.nspace,
          Effect.updateStatus
            (MarkTargetsError e "UnsupportedAPIVersion" e.spec.targetService.apiVersion)] } ∧
    GetCondition (MarkTargetsError e "UnsupportedAPIVersion"
        e.spec.targetService.apiVersion).status ConditionType.TargetsProvided =
      some { ctype := ConditionType.TargetsProvided, status := ConditionStatus.cFalse,
             reason := "UnsupportedAPIVersion", message := e.spec.targetService.apiVersion } := by
  have hfr : addFinalizerIfAbsent env Finalizer e =
      { err := none, inst := e, effects := [] } := by
    simp [addFinalizerIfAbsent, h3]
  have hpr : proceed e = true := by
    simp [proceed, h2]
  constructor
  · simp [Reconcile, hfr, hardFail, h1, hpr, reconcileMain, h4, reconcileAfterInit,
      syncMetrics, h5, dispatch, h6, h7]
  · exact GetCondition_setCondition e ConditionType.TargetsProvided
      ConditionStatus.cFalse "UnsupportedAPIVersion" e.spec.targetService.apiVersion

/-- Claim C6 witness: the terminal targets error evaluated on a
concrete experiment whose API version is `v2`. -/
theorem c6_unsupported_api_witness :
    Reconcile envD (FetchResult.found expC6) =
      { result := emptyResult, err := none,
        inst := some (MarkTargetsError expC6 "UnsupportedAPIVersion"
          expC6.spec.targetService.apiVersion),
        effects := [Effect.registerExperiment expC6.name expC6.nspace,
          Effect.updateStatus (MarkTargetsError expC6 "UnsupportedAPIVersion"
            expC6.spec.targetService.apiVersion)] } ∧
    GetCondition (MarkTargetsError expC6 "UnsupportedAPIVersion"
        expC6.spec.targetService.apiVersion).status ConditionType.TargetsProvided =
      some { ctype := ConditionType.TargetsProvided, status := ConditionStatus.cFalse,
             reason := "UnsupportedAPIVersion",
             message := expC6.spec.targetService.apiVersion } :=
  c6_unsupported_api envD expC6 rfl (by decide) (by decide) (by decide) rfl
    (by decide) (by decide)

/- Preservation of the non-status part of the record by the sync
sub-steps, and gating of the analytics call. -/

theorem setCondition_action (e : Experiment) (t : ConditionType) (s : ConditionStatus)
    (reason msg : String) : (setCondition e t s reason msg).action = e.action := rfl

theorem setCondition_lastIncrement (e : Experiment) (t : ConditionType)
    (s : ConditionStatus) (reason msg : String) :
    (setCondition e t s reason msg).status.lastIncrementTime =
      e.status.lastIncrementTime := rfl

theorem setCondition_spec (e : Experiment) (t : ConditionType) (s : ConditionStatus)
    (reason msg : String) : (setCondition e t s reason msg).spec = e.spec := rfl

theorem progress_congr (now : Int) (a b : Experiment)
    (hact : a.action = b.action)
    (hlit : a.status.lastIncrementTime = b.status.lastIncrementTime)
    (hspec : a.spec = b.spec) :
    progress now a = progress now b := by
  simp [progress, hact, hlit, hspec]

theorem checkOrInitRules_frame (env : Env) (e : Experiment) :
    (checkOrInitRules env e).inst.action = e.action ∧
    (checkOrInitRules env e).inst.status.lastIncrementTime = e.status.lastIncrementTime ∧
    (checkOrInitRules env e).inst.spec = e.spec := by
  unfold checkOrInitRules
  split
  · exact ⟨rfl, rfl, rfl⟩
  · split <;> exact ⟨rfl, rfl, rfl⟩

theorem detectTargetsResolve_frame (env : Env) (e : Experiment) :
    (detectTargetsResolve env e).inst.action = e.action ∧
    (detectTargetsResolve env e).inst.status.lastIncrementTime = e.status.lastIncrementTime ∧
    (detectTargetsResolve env e).inst.spec = e.spec := by
  unfold detectTargetsResolve
  split
  · exact ⟨rfl, rfl, rfl⟩
  · split <;> exact ⟨rfl, rfl, rfl⟩

theorem checkOrInitRules_no_analytics (env : Env) (e : Experiment) :
    Effect.analyticsCall ∉ (checkOrInitRules env e).effects := by
  unfold checkOrInitRules
  split
  · simp
  · split <;> simp

theorem detectTargetsResolve_no_analytics (env : Env) (e : Experiment) :
    Effect.analyticsCall ∉ (detectTargetsResolve env e).effects := by
  unfold detectTargetsResolve
  split
  · simp
  · split <;> simp

theorem checkExperimentCompleted_no_analytics (env : Env) (e : Experiment) :
    Effect.analyticsCall ∉ (checkExperimentCompleted env e).effects := by
  unfold checkExperimentCompleted
  split <;> simp

theorem skCompletion_no_analytics (env : Env) (e : Experiment) (effs : List Effect)
    (b : Bool) (h : Effect.analyticsCall ∉ effs) :
    Effect.analyticsCall ∉ (skCompletion env e effs b).effects := by
  have hc := checkExperimentCompleted_no_analytics env e
  unfold skCompletion
  split_ifs <;> simp_all

theorem skProgress_gated (env : Env) (e : Experiment) (effs : List Effect)
    (hp : progress env.now e = false) (h : Effect.analyticsCall ∉ effs) :
    Effect.analyticsCall ∉ (skProgress env e effs).effects := by
  unfold skProgress
  rw [hp]
  simp only [Bool.false_eq_true, if_false]
  exact skCompletion_no_analytics env e effs false h

theorem skDetect_gated (env : Env) (e : Experiment) (effs : List Effect)
    (hp : progress env.now e = false) (h : Effect.analyticsCall ∉ effs) :
    Effect.analyticsCall ∉ (skDetect env e effs).effects := by
  have hfr := detectTargetsResolve_frame env e
  have hna := detectTargetsResolve_no_analytics env e
  have hpg : progress env.now (detectTargetsResolve env e).inst = false := by
    rw [progress_congr env.now (detectTargetsResolve env e).inst e hfr.1 hfr.2.1 hfr.2.2]
    exact hp
  have hmem : Effect.analyticsCall ∉ effs ++ (detectTargetsResolve env e).effects := by
    simp only [List.mem_append]
    rintro (hx | hx)
    · exact h hx
    · exact hna hx
  have hsp := skProgress_gated env (detectTargetsResolve env e).inst
    (effs ++ (detectTargetsResolve env e).effects) hpg hmem
  have hsp2 := skProgress_gated env e effs hp h
  unfold skDetect
  split_ifs <;> simp_all

theorem syncKubernetes_gated (env : Env) (e : Experiment)
    (hp : progress env.now e = false) :
    Effect.analyticsCall ∉ (syncKubernetes env e).effects := by
  have hfr := checkOrInitRules_frame env e
  have hna := checkOrInitRules_no_analytics env e
  have hpg : progress env.now (checkOrInitRules env e).inst = false := by
    rw [progress_congr env.now (checkOrInitRules env e).inst e hfr.1 hfr.2.1 hfr.2.2]
    exact hp
  have hsd := skDetect_gated env (checkOrInitRules env e).inst
    (checkOrInitRules env e).effects hpg hna
  unfold syncKubernetes
  split_ifs <;> simp_all

/- Claim C3. -/

/-- Claim C3 (amended): the per-reconcile progress check returns false
whenever the action is a terminate variant; otherwise it permits
progression exactly when `now` is *strictly* later than
`lastIncrementTime + interval`; and whenever the check is false the
kubernetes sync pass makes no analytics call. -/
theorem c3_progress_check (env : Env) (e : Experiment) :
    (TerminateExperiment e.action = true → progress env.now e = false) ∧
    (TerminateExperiment e.action = false →
      (progress env.now e = true ↔
        env.now > e.status.lastIncrementTime + e.spec.trafficControl.interval)) ∧
    (progress env.now e = false →
      Effect.analyticsCall ∉ (syncKubernetes env e).effects) := by
  refine ⟨?_, ?_, ?_⟩
  · intro h
    simp [progress, h]
  · intro h
    simp [progress, h]
  · exact syncKubernetes_gated env e

/-- An experiment under a terminate action. -/
def expC3t : Experiment := { expD with action := ActionAbort }

/-- Claim C3 witness: on a concrete experiment whose action is the
abort terminate variant, the progress check is false and the
kubernetes sync pass performs no analytics call. -/
theorem c3_progress_check_witness :
    progress envD.now expC3t = false ∧
    Effect.analyticsCall ∉ (syncKubernetes envD expC3t).effects :=
  ⟨(c3_progress_check envD expC3t).1 (by decide),
   (c3_progress_check envD expC3t).2.2 ((c3_progress_check envD expC3t).1 (by decide))⟩

/-- Claim C3 counterexample: with `lastIncrementTime = 10` and
`interval = 5`, at `now = 15` the claim's `now ≥ lastIncrementTime +
interval` permits progression, but the code uses a strict comparison
and refuses it. -/
theorem c3_progress_check_counterexample :
    progressSpec 15 expD = true ∧ progress 15 expD = false :=
  ⟨rfl, rfl⟩

/- Preservation of name, namespace and action by the sync pass. -/

theorem checkOrInitRules_meta (env : Env) (e : Experiment) :
    (checkOrInitRules env e).inst.name = e.name ∧
    (checkOrInitRules env e).inst.nspace = e.nspace ∧
    (checkOrInitRules env e).inst.action = e.action := by
  unfold checkOrInitRules
  split
  · exact ⟨rfl, rfl, rfl⟩
  · split <;> exact ⟨rfl, rfl, rfl⟩

theorem detectTargetsResolve_meta (env : Env) (e : Experiment) :
    (detectTargetsResolve env e).inst.name = e.name ∧
    (detectTargetsResolve env e).inst.nspace = e.nspace ∧
    (detectTargetsResolve env e).inst.action = e.action := by
  unfold detectTargetsResolve
  split
  · exact ⟨rfl, rfl, rfl⟩
  · split <;> exact ⟨rfl, rfl, rfl⟩

theorem progressExperiment_meta (env : Env) (e : Experiment) :
    (progressExperiment env e).inst.name = e.name ∧
    (progressExperiment env e).inst.nspace = e.nspace ∧
    (progressExperiment env e).inst.action = e.action := by
  unfold progressExperiment
  split <;> exact ⟨rfl, rfl, rfl⟩

theorem checkExperimentCompleted_meta (env : Env) (e : Experiment) :
    (checkExperimentCompleted env e).inst.name = e.name ∧
    (checkExperimentCompleted env e).inst.nspace = e.nspace ∧
    (checkExperimentCompleted env e).inst.action = e.action := by
  unfold checkExperimentCompleted
  split <;> exact ⟨rfl, rfl, rfl⟩

theorem skCompletion_meta (env : Env) (e : Experiment) (effs : List Effect) (b : Bool) :
    (skCompletion env e effs b).inst.name = e.name ∧
    (skCompletion env e effs b).inst.nspace = e.nspace ∧
    (skCompletion env e effs b).inst.action = e.action := by
  have h := checkExperimentCompleted_meta env e
  unfold skCompletion
  split_ifs <;> exact h

theorem skProgress_meta (env : Env) (e : Experiment) (effs : List Effect) :
    (skProgress env e effs).inst.name = e.name ∧
    (skProgress env e effs).inst.nspace = e.nspace ∧
    (skProgress env e effs).inst.action = e.action := by
  have hp := progressExperiment_meta env e
  unfold skProgress
  split_ifs
  · exact hp
  · exact hp
  · have h := skCompletion_meta env (progressExperiment env e).inst
      (effs ++ (progressExperiment env e).effects ++
        [Effect.updateStatus (progressExperiment env e).inst]) true
    exact ⟨h.1.trans hp.1, h.2.1.trans hp.2.1, h.2.2.trans hp.2.2⟩
  · exact skCompletion_meta env e effs false

theorem skDetect_meta (env : Env) (e : Experiment) (effs : List Effect) :
    (skDetect env e effs).inst.name = e.name ∧
    (skDetect env e effs).inst.nspace = e.nspace ∧
    (skDetect env e effs).inst.action = e.action := by
  have hd := detectTargetsResolve_meta env e
  unfold skDetect
  split_ifs
  · exact hd
  · exact hd
  · have h := skProgress_meta env (detectTargetsResolve env e).inst
      (effs ++ (detectTargetsResolve env e).effects)
    exact ⟨h.1.trans hd.1, h.2.1.trans hd.2.1, h.2.2.trans hd.2.2⟩
  · exact skProgress_meta env e effs

theorem syncKubernetes_meta (env : Env) (e : Experiment) :
    (syncKubernetes env e).inst.name = e.name ∧
    (syncKubernetes env e).inst.nspace = e.nspace ∧
    (syncKubernetes env e).inst.action = e.action := by
  have hr := checkOrInitRules_meta env e
  unfold syncKubernetes
  split_ifs
  · exact hr
  · exact hr
  · have h := skDetect_meta env (checkOrInitRules env e).inst (checkOrInitRules env e).effects
    exact ⟨h.1.trans hr.1, h.2.1.trans hr.2.1, h.2.2.trans hr.2.2⟩

/- Claim C2. -/

/-- Claim C2 (amended): on a deleted experiment of the kubernetes
family whose `ExperimentCompleted` condition is *present* and not True,
finalization force-terminates by setting `action = overrideFailure`,
runs one synthetic kubernetes sync pass on the overridden instance,
removes the experiment from the IndexCache, and only after that issues
the cluster update that removes the finalizer token.  (When the
condition is absent the code skips the force-termination; see the
counterexample.) -/
theorem c2_finalize_force_termination (env : Env) (e : Experiment) (c : Condition)
    (hdel : e.deletionTimestamp.isSome = true)
    (hapi : e.spec.targetService.apiVersion = KubernetesService)
    (hc : GetCondition e.status ConditionType.ExperimentCompleted = some c)
    (hnt : c.status ≠ ConditionStatus.cTrue) :
    finalize env e =
      { result := emptyResult,
        err := (removeFinalizer env Finalizer
          (syncKubernetes env { e with action := ActionOverrideFailure }).inst).err,
        inst := (removeFinalizer env Finalizer
          (syncKubernetes env { e with action := ActionOverrideFailure }).inst).inst,
        effects := (syncKubernetes env { e with action := ActionOverrideFailure }).effects ++
          [Effect.removeExperimentFromCache
            (syncKubernetes env { e with action := ActionOverrideFailure }).inst.name
            (syncKubernetes env { e with action := ActionOverrideFailure }).inst.nspace] ++
          (removeFinalizer env Finalizer
            (syncKubernetes env { e with action := ActionOverrideFailure }).inst).effects } ∧
    (syncKubernetes env { e with action := ActionOverrideFailure }).inst.name = e.name ∧
    (syncKubernetes env { e with action := ActionOverrideFailure }).inst.nspace = e.nspace ∧
    (syncKubernetes env { e with action := ActionOverrideFailure }).inst.action =
      ActionOverrideFailure ∧
    Finalizer ∉ (finalize env e).inst.finalizers := by
  have hm := syncKubernetes_meta env { e with action := ActionOverrideFailure }
  refine ⟨?_, hm.1, hm.2.1, hm.2.2, ?_⟩
  · simp [finalize, hapi, finalizeIstio, hc, hnt]
  · have hfe : finalize env e = finalizeIstio env e := by simp [finalize, hapi]
    rw [hfe]
    unfold finalizeIstio
    rw [hc]
    simp [hnt, removeFinalizer, List.mem_filter]

/-- A not-True completion condition. -/
def condC2 : Condition :=
  { ctype := ConditionType.ExperimentCompleted, status := ConditionStatus.cFalse,
    reason := "", message := "" }

/-- A deleted kubernetes-family experiment whose completion condition
is present and not True. -/
def expC2 : Experiment :=
  { expD with
      deletionTimestamp := some 5,
      status := { statusD with conditions := [condC2] } }

/-- Claim C2 witness: the force-terminating finalization evaluated on a
concrete deleted experiment carrying a not-True completion condition. -/
theorem c2_finalize_force_termination_witness :
    finalize envD expC2 =
      { result := emptyResult,
        err := (removeFinalizer envD Finalizer
          (syncKubernetes envD { expC2 with action := ActionOverrideFailure }).inst).err,
        inst := (removeFinalizer envD Finalizer
          (syncKubernetes envD { expC2 with action := ActionOverrideFailure }).inst).inst,
        effects := (syncKubernetes envD { expC2 with action := ActionOverrideFailure }).effects ++
          [Effect.removeExperimentFromCache
            (syncKubernetes envD { expC2 with action := ActionOverrideFailure }).inst.name
            (syncKubernetes envD { expC2 with action := ActionOverrideFailure }).inst.nspace] ++
          (removeFinalizer envD Finalizer
            (syncKubernetes envD { expC2 with action := ActionOverrideFailure }).inst).effects } ∧
    (syncKubernetes envD { expC2 with action := ActionOverrideFailure }).inst.name = expC2.name ∧
    (syncKubernetes envD { expC2 with action := ActionOverrideFailure }).inst.nspace = expC2.nspace ∧
    (syncKubernetes envD { expC2 with action := ActionOverrideFailure }).inst.action =
      ActionOverrideFailure ∧
    Finalizer ∉ (finalize envD expC2).inst.finalizers :=
  c2_finalize_force_termination envD expC2 condC2 rfl rfl (by decide) (by decide)

/-- A deleted kubernetes-family experiment with no conditions at all. -/
def expC2n : Experiment := { expD with deletionTimestamp := some 5 }

/-- Claim C2 counterexample: on a deleted kubernetes-family experiment
whose `ExperimentCompleted` condition is absent — hence not True — the
code does *not* force-terminate: it removes the finalizer directly,
with no action override, no synthetic sync pass and no IndexCache
removal. -/
theorem c2_finalize_force_termination_counterexample :
    expC2n.deletionTimestamp.isSome = true ∧
    expC2n.spec.targetService.apiVersion = KubernetesService ∧
    GetCondition expC2n.status ConditionType.ExperimentCompleted = none ∧
    finalize envD expC2n =
      { result := emptyResult, err := none,
        inst := { expC2n with finalizers := [] },
        effects := [Effect.updateExperiment { expC2n with finalizers := [] }] } ∧
    (finalize envD expC2n).inst.action ≠ ActionOverrideFailure := by
  refine ⟨rfl, rfl, rfl, ?_, ?_⟩
  · decide
  · decide

/- Claim C5. -/

theorem GetStableTarget_cases (e : Experiment) :
    GetStableTarget e = "baseline" ∨ GetStableTarget e = "candidate" := by
  unfold GetStableTarget
  split_ifs
  · left
    rfl
  · right
    rfl
  · left
    rfl
  · cases hg : GetCondition e.status ConditionType.ExperimentSucceeded with
    | none => simp
    | some c => by_cases hcs : c.status = ConditionStatus.cTrue <;> simp [hcs]

/-- Claim C5 (confirmed): under the delete cleanup policy, `Cleanup`
deletes exactly the workload opposite to the stable target, never the
stable one, and sets the traffic split to 100 for the stable side and 0
for the other; the stable target is always baseline or candidate, and
the outcome of the delete call (including not-found) never influences
the result, which carries no error. -/
theorem c5_cleanup_delete (t : Targets) (e : Experiment)
    (hpol : e.spec.cleanUp = CleanUpDelete)
    (hdist : t.baseline ≠ t.candidate) :
    (GetStableTarget e = "baseline" →
      Cleanup t e = ({ e with status := { e.status with trafficSplit := ⟨100, 0⟩ } },
        [Effect.deleteWorkload t.candidate]) ∧
      Effect.deleteWorkload t.baseline ∉ (Cleanup t e).2) ∧
    (GetStableTarget e = "candidate" →
      Cleanup t e = ({ e with status := { e.status with trafficSplit := ⟨0, 100⟩ } },
        [Effect.deleteWorkload t.baseline]) ∧
      Effect.deleteWorkload t.candidate ∉ (Cleanup t e).2) ∧
    (GetStableTarget e = "baseline" ∨ GetStableTarget e = "candidate") := by
  refine ⟨?_, ?_, GetStableTarget_cases e⟩
  · intro hb
    have hcl : Cleanup t e =
        ({ e with status := { e.status with trafficSplit := ⟨100, 0⟩ } },
          [Effect.deleteWorkload t.candidate]) := by
      simp [Cleanup, hpol, hb]
    refine ⟨hcl, ?_⟩
    rw [hcl]
    simp [hdist]
  · intro hcnd
    have hcl : Cleanup t e =
        ({ e with status := { e.status with trafficSplit := ⟨0, 100⟩ } },
          [Effect.deleteWorkload t.baseline]) := by
      simp [Cleanup, hpol, hcnd]
    refine ⟨hcl, ?_⟩
    rw [hcl]
    intro hmem
    rw [List.mem_singleton] at hmem
    exact hdist (Effect.deleteWorkload.injEq t.baseline t.candidate ▸ hmem ▸ rfl)

/-- A delete-policy experiment aborted by the operator (stable target
baseline). -/
def expC5 : Experiment :=
  { expD with action := ActionAbort, spec := { specD with cleanUp := CleanUpDelete } }

/-- Claim C5 witness: the delete-policy cleanup evaluated on a concrete
aborted experiment: the candidate workload is deleted, the baseline is
untouched, and the split becomes 100/0. -/
theorem c5_cleanup_delete_witness :
    (GetStableTarget expC5 = "baseline" →
      Cleanup targetsD expC5 =
        ({ expC5 with status := { expC5.status with trafficSplit := ⟨100, 0⟩ } },
          [Effect.deleteWorkload targetsD.candidate]) ∧
      Effect.deleteWorkload targetsD.baseline ∉ (Cleanup targetsD expC5).2) ∧
    (GetStableTarget expC5 = "candidate" →
      Cleanup targetsD expC5 =
        ({ expC5 with status := { expC5.status with trafficSplit := ⟨0, 100⟩ } },
          [Effect.deleteWorkload targetsD.baseline]) ∧
      Effect.deleteWorkload targetsD.candidate ∉ (Cleanup targetsD expC5).2) ∧
    (GetStableTarget expC5 = "baseline" ∨ GetStableTarget expC5 = "candidate") :=
  c5_cleanup_delete targetsD expC5 rfl (by decide)

/- Claim C10. -/

/-- Claim C10 (confirmed): finalizing a deleted experiment whose API
family is neither kubernetes nor knative removes the finalizer token
immediately: the only effect is the cluster update carrying the
filtered finalizer list, with no action override, no analytics call, no
routing change and no IndexCache removal. -/
theorem c10_finalize_unsupported (env : Env) (e : Experiment)
    (hdel : e.deletionTimestamp.isSome = true)
    (h6 : e.spec.targetService.apiVersion ≠ KubernetesService)
    (h7 : e.spec.targetService.apiVersion ≠ KnativeServiceV1Alpha1) :
    finalize env e =
      { result := emptyResult, err := (removeFinalizer env Finalizer e).err,
        inst := (removeFinalizer env Finalizer e).inst,
        effects := (removeFinalizer env Finalizer e).effects } ∧
    (removeFinalizer env Finalizer e).inst.action = e.action ∧
    (removeFinalizer env Finalizer e).inst.finalizers =
      e.finalizers.filter (fun f => !(decide (f = Finalizer))) ∧
    (finalize env e).effects =
      [Effect.updateExperiment (removeFinalizer env Finalizer e).inst] ∧
    Effect.analyticsCall ∉ (finalize env e).effects ∧
    Effect.removeExperimentFromCache e.name e.nspace ∉ (finalize env e).effects ∧
    (∀ s : TrafficSplit, Effect.routingUpdate s ∉ (finalize env e).effects) := by
  have hfe : finalize env e =
      { result := emptyResult, err := (removeFinalizer env Finalizer e).err,
        inst := (removeFinalizer env Finalizer e).inst,
        effects := (removeFinalizer env Finalizer e).effects } := by
    simp [finalize, h6, h7]
  refine ⟨hfe, rfl, rfl, ?_, ?_, ?_, ?_⟩
  · rw [hfe]
    rfl
  · rw [hfe]
    simp [removeFinalizer]
  · rw [hfe]
    simp [removeFinalizer]
  · intro s
    rw [hfe]
    simp [removeFinalizer]

/-- A deleted experiment of an unsupported API family. -/
def expC10 : Experiment := { expC6 with deletionTimestamp := some 3 }

/-- Claim C10 witness: the immediate finalizer removal evaluated on a
concrete deleted experiment with API version `v2`. -/
theorem c10_finalize_unsupported_witness :
    finalize envD expC10 =
      { result := emptyResult, err := (removeFinalizer envD Finalizer expC10).err,
        inst := (removeFinalizer envD Finalizer expC10).inst,
        effects := (removeFinalizer envD Finalizer expC10).effects } ∧
    (removeFinalizer envD Finalizer expC10).inst.action = expC10.action ∧
    (removeFinalizer envD Finalizer expC10).inst.finalizers =
      expC10.finalizers.filter (fun f => !(decide (f = Finalizer))) ∧
    (finalize envD expC10).effects =
      [Effect.updateExperiment (removeFinalizer envD Finalizer expC10).inst] ∧
    Effect.analyticsCall ∉ (finalize envD expC10).effects ∧
    Effect.removeExperimentFromCache expC10.name expC10.nspace ∉ (finalize envD expC10).effects ∧
    (∀ s : TrafficSplit, Effect.routingUpdate s ∉ (finalize envD expC10).effects) :=
  c10_finalize_unsupported envD expC10 rfl (by decide) (by decide)
